import Mathlib

/-!
Shallow embedding of the GKE cluster reconciler in src/compute/gke.go.
The reconciler mutates a GKECluster record, calls an external cluster client
(create, get, delete), publishes a connection secret, and returns a
controller-runtime result together with an error.  External dependencies are
modelled as an oracle (GkeEnv) giving the outcome each call would have, and a
reconcile invocation additionally records the ordered list of external calls
it performed.
-/

set_option linter.unusedVariables false

namespace GkeReconciler

/-- Condition categories used by the reconciler status: Creating, Ready and
Failed. -/
inductive ConditionType
  | Creating
  | Ready
  | Failed
deriving DecidableEq

/-- An active status condition on a cluster record: its category together with
the reason and message strings supplied when it was set. -/
structure Condition where
  condType : ConditionType
  reason : String
  message : String
deriving DecidableEq

/-- Modelled from the spec: the ConditionedStatus helper (defined outside src)
replaces any prior condition of the same type and keeps conditions of other
types; the condition set is represented as the list of active conditions. -/
def setCondition (cs : List Condition) (t : ConditionType) (reason msg : String) : List Condition :=
  cs.filter (fun c => c.condType ≠ t) ++ [⟨t, reason, msg⟩]

/-- Modelled from the spec: UnsetAllConditions (defined outside src)
deactivates every condition, leaving no active condition. -/
def unsetAllConditions (cs : List Condition) : List Condition := []

/-- Modelled from the spec: SetFailed (defined outside src) activates the
Failed condition with the given reason and message. -/
def setFailed (cs : List Condition) (reason msg : String) : List Condition :=
  setCondition cs ConditionType.Failed reason msg

/-- Modelled from the spec: SetCreating (defined outside src) activates the
Creating condition. -/
def setCreating (cs : List Condition) : List Condition :=
  setCondition cs ConditionType.Creating "Creating" ""

/-- Modelled from the spec: SetReady (defined outside src) activates the
Ready condition. -/
def setReady (cs : List Condition) : List Condition :=
  setCondition cs ConditionType.Ready "Ready" ""

/-- Reclaim policy of the cluster spec: Delete tears the external resource
down on record deletion, Retain keeps it. -/
inductive ReclaimPolicy
  | Delete
  | Retain
deriving DecidableEq

/-- The GKECluster record: the fields of the Kubernetes object that the
reconciler in src/compute/gke.go reads and writes.  clusterName is the
Status.ClusterName field (the external name, empty meaning not yet created),
deletionTimestamp is the ObjectMeta.DeletionTimestamp (a deletion request). -/
structure GKECluster where
  uid : String
  zone : String
  reclaimPolicy : ReclaimPolicy
  clusterName : String
  conditions : List Condition
  finalizers : List String
  deletionTimestamp : Option Nat
deriving DecidableEq

/-- Modelled from the spec: util.HasFinalizer (defined outside src) checks
membership of a token in the finalizer list. -/
def hasFinalizer (fs : List String) (f : String) : Bool := fs.contains f

/-- Modelled from the spec: util.AddFinalizer (defined outside src) adds a
token with set semantics (no duplicates). -/
def addFinalizer (fs : List String) (f : String) : List String :=
  if fs.contains f then fs else fs ++ [f]

/-- Modelled from the spec: util.RemoveFinalizer (defined outside src) removes
a token; removing an absent token is a no-op. -/
def removeFinalizer (fs : List String) (f : String) : List String :=
  fs.filter (fun x => x ≠ f)

/-- Observed external cluster state (container.Cluster): the lifecycle status
string plus the master auth attributes used to build the connection secret. -/
structure Cluster where
  status : String
  endpoint : String
  username : String
  password : String
  clusterCaCertificate : String
  clientCertificate : String
  clientKey : String
deriving DecidableEq

/-- Modelled from the spec: the running terminal-success cluster state
constant (gcpcomputev1alpha1.ClusterStateRunning, defined outside src). -/
def clusterStateRunning : String := "RUNNING"

/-- Controller name constant from gke.go. -/
def controllerName : String := "gke.compute.gcp.conductor.io"

/-- Finalizer token constant from gke.go. -/
def finalizer : String := "finalizer." ++ controllerName

/-- Cluster name derivation constant from gke.go (clusterNamePrefix). -/
def clusterNamePfx : String := "gke-"

/-- Error reason constant errorClusterClient from gke.go. -/
def errorClusterClient : String := "Failed to create cluster client"

/-- Error reason constant errorCreatingCluster from gke.go. -/
def errorCreatingCluster : String := "Failed to create new cluster"

/-- Error reason constant errorUpdatingCluster from gke.go. -/
def errorUpdatingCluster : String := "Failed to update cluster"

/-- Error reason constant errorDeletingCluster from gke.go. -/
def errorDeletingCluster : String := "Failed to delete cluster"

/-- Error reason constant errorClusterConnectionSecret from gke.go. -/
def errorClusterConnectionSecret : String := "Failed to create/update cluster connection secret"

/-- controller-runtime reconcile.Result: an immediate requeue flag and a
requeue-after delay (zero means no delay was requested). -/
structure Result where
  requeue : Bool
  requeueAfter : Nat
deriving DecidableEq

/-- The zero result constant from gke.go (no requeue). -/
def result : Result := ⟨false, 0⟩

/-- The requeue result constant from gke.go (immediate requeue, no delay). -/
def resultRequeue : Result := ⟨true, 0⟩

/-- Classification of a CreateCluster error exactly as tested by
gcp.IsAlreadyExists and gcp.IsBadRequest in gke.go; other covers every
remaining error. -/
inductive CreateErr
  | alreadyExists (msg : String)
  | badRequest (msg : String)
  | other (msg : String)
deriving DecidableEq

/-- Classification of a DeleteCluster error: notFound when the external
resource is already absent, other for the rest.  gke.go itself never
distinguishes the two. -/
inductive DeleteErr
  | notFound (msg : String)
  | other (msg : String)
deriving DecidableEq

/-- Message carried by a delete error. -/
def DeleteErr.msg : DeleteErr → String
  | .notFound m => m
  | .other m => m

/-- Outcome of a GetCluster call: the observed cluster or an error message. -/
inductive GetResult
  | ok (cluster : Cluster)
  | err (msg : String)
deriving DecidableEq

/-- Externally visible operations a reconcile invocation performs, recorded in
order: the GKE client calls, the secret apply, and each record persist. -/
inductive ExtCall
  | createCluster (name : String)
  | getCluster (zone : String) (name : String)
  | deleteCluster (zone : String) (name : String)
  | applySecret (data : List (String × String))
  | update
deriving DecidableEq

/-- True exactly on createCluster calls. -/
def ExtCall.isCreate : ExtCall → Bool
  | .createCluster _ => true
  | _ => false

/-- Oracle for one reconcile invocation: the outcome each external dependency
would return if invoked (client connect, CreateCluster, GetCluster,
DeleteCluster, ApplySecret, the record persist after adding the finalizer,
and the record persist performed by the taken branch). -/
structure GkeEnv where
  connectErr : Option String
  createErr : Option CreateErr
  getClusterResult : GetResult
  deleteErr : Option DeleteErr
  applySecretErr : Option String
  updateFinalizerErr : Option String
  updateErr : Option String
deriving DecidableEq

/-- Result of one reconcile invocation: the returned reconcile.Result and
error, the final in-memory record, and the external calls performed. -/
structure ROutput where
  res : Result
  err : Option String
  inst : GKECluster
  calls : List ExtCall
deriving DecidableEq

/-- A connection secret: keyed to the owning record, with byte-string data
entries. -/
structure Secret where
  owner : String
  data : List (String × String)
deriving DecidableEq

/-- Modelled from the spec: connection-secret key constant endpoint. -/
def secretEndpointKey : String := "endpoint"

/-- Modelled from the spec: connection-secret key constant username. -/
def secretUserKey : String := "username"

/-- Modelled from the spec: connection-secret key constant password. -/
def secretPasswordKey : String := "password"

/-- Modelled from the spec: connection-secret key constant ca-certificate. -/
def secretCAKey : String := "ca-certificate"

/-- Modelled from the spec: connection-secret key constant
client-certificate. -/
def secretClientCertKey : String := "client-certificate"

/-- Modelled from the spec: connection-secret key constant client-key. -/
def secretClientKeyKey : String := "client-key"

/-- Data map built by connectionSecret in gke.go (lines 123 to 130): the six
fixed keys mapped to the observed endpoint and master auth attributes. -/
def connectionSecretData (cluster : Cluster) : List (String × String) :=
  [(secretEndpointKey, cluster.endpoint),
   (secretUserKey, cluster.username),
   (secretPasswordKey, cluster.password),
   (secretCAKey, cluster.clusterCaCertificate),
   (secretClientCertKey, cluster.clientCertificate),
   (secretClientKeyKey, cluster.clientKey)]

/-- Embeds connectionSecret (gke.go lines 121 to 133): the secret keyed to the
owning record carrying the six-entry data map. -/
def connectionSecret (inst : GKECluster) (cluster : Cluster) : Secret :=
  ⟨inst.uid, connectionSecretData cluster⟩

/-- Embeds Reconciler.fail (gke.go lines 113 to 118): unset all conditions,
set the Failed condition, persist the record, and return the requeue result
together with the persist error. -/
def fail (inst : GKECluster) (reason msg : String) (updateErr : Option String) : ROutput :=
  let inst2 := { inst with
    conditions := setFailed (unsetAllConditions inst.conditions) reason msg }
  ⟨resultRequeue, updateErr, inst2, [ExtCall.update]⟩

/-- Embeds Reconciler._create (gke.go lines 160 to 178): call CreateCluster
with the name derived from the record uid; a BadRequest error sets Failed and
does not requeue, any other error other than AlreadyExists goes through fail,
and success or AlreadyExists clears conditions, sets Creating, records the
cluster name, persists and requeues. -/
def createBranch (env : GkeEnv) (inst : GKECluster) : ROutput :=
  let clusterName := clusterNamePfx ++ inst.uid
  match env.createErr with
  | some (CreateErr.badRequest msg) =>
      let inst2 := { inst with
        conditions := setFailed inst.conditions errorCreatingCluster msg }
      ⟨result, env.updateErr, inst2, [ExtCall.createCluster clusterName, ExtCall.update]⟩
  | some (CreateErr.other msg) =>
      let o := fail inst errorCreatingCluster msg env.updateErr
      { o with calls := ExtCall.createCluster clusterName :: o.calls }
  | _ =>
      let inst2 := { inst with
        conditions := setCreating (unsetAllConditions inst.conditions),
        clusterName := clusterName }
      ⟨resultRequeue, env.updateErr, inst2, [ExtCall.createCluster clusterName, ExtCall.update]⟩

/-- Embeds Reconciler._sync (gke.go lines 180 to 201): call GetCluster with
the recorded zone and cluster name; a get error goes through fail, a cluster
not yet running returns an immediate requeue with nothing changed, and a
running cluster has its connection secret applied before Ready is set. -/
def syncBranch (env : GkeEnv) (inst : GKECluster) : ROutput :=
  let getCall := ExtCall.getCluster inst.zone inst.clusterName
  match env.getClusterResult with
  | GetResult.err msg =>
      let o := fail inst errorUpdatingCluster msg env.updateErr
      { o with calls := getCall :: o.calls }
  | GetResult.ok cluster =>
      if cluster.status ≠ clusterStateRunning then
        ⟨resultRequeue, none, inst, [getCall]⟩
      else
        match env.applySecretErr with
        | some msg =>
            let o := fail inst errorClusterConnectionSecret msg env.updateErr
            { o with calls :=
                getCall :: ExtCall.applySecret (connectionSecret inst cluster).data :: o.calls }
        | none =>
            let inst2 := { inst with
              conditions := setReady (unsetAllConditions inst.conditions) }
            ⟨result, env.updateErr, inst2,
              [getCall, ExtCall.applySecret (connectionSecret inst cluster).data,
               ExtCall.update]⟩

/-- Embeds Reconciler._delete (gke.go lines 204 to 213): under reclaim policy
Delete call DeleteCluster and go through fail on any error; otherwise skip the
external call; on success remove the finalizer, unset all conditions and
persist. -/
def deleteBranch (env : GkeEnv) (inst : GKECluster) : ROutput :=
  if inst.reclaimPolicy = ReclaimPolicy.Delete then
    match env.deleteErr with
    | some e =>
        let o := fail inst errorDeletingCluster e.msg env.updateErr
        { o with calls := ExtCall.deleteCluster inst.zone inst.clusterName :: o.calls }
    | none =>
        let inst2 := { inst with
          finalizers := removeFinalizer inst.finalizers finalizer,
          conditions := unsetAllConditions inst.conditions }
        ⟨result, env.updateErr, inst2,
          [ExtCall.deleteCluster inst.zone inst.clusterName, ExtCall.update]⟩
  else
    let inst2 := { inst with
      finalizers := removeFinalizer inst.finalizers finalizer,
      conditions := unsetAllConditions inst.conditions }
    ⟨result, env.updateErr, inst2, [ExtCall.update]⟩

/-- Embeds the tail of Reconciler.Reconcile (gke.go lines 250 to 256): create
when no external name is recorded, otherwise sync; preCalls carries the
record persist performed earlier when the finalizer was added. -/
def branchAfterFinalizer (env : GkeEnv) (inst : GKECluster) (preCalls : List ExtCall) : ROutput :=
  if inst.clusterName = "" then
    let o := createBranch env inst
    { o with calls := preCalls ++ o.calls }
  else
    let o := syncBranch env inst
    { o with calls := preCalls ++ o.calls }

/-- Embeds Reconciler.Reconcile after the inst fetch (gke.go lines 230 to
256): connect to the external client (a failure goes through fail), branch to
delete when a deletion timestamp is present, otherwise install the finalizer
if absent (persisting immediately, returning the requeue result and the error
if that persist fails), then run the create or sync branch. -/
def reconcile (env : GkeEnv) (inst : GKECluster) : ROutput :=
  match env.connectErr with
  | some msg => fail inst errorClusterClient msg env.updateErr
  | none =>
      if inst.deletionTimestamp.isSome then
        deleteBranch env inst
      else if hasFinalizer inst.finalizers finalizer then
        branchAfterFinalizer env inst []
      else
        let inst2 := { inst with finalizers := addFinalizer inst.finalizers finalizer }
        match env.updateFinalizerErr with
        | some msg => ⟨resultRequeue, some msg, inst2, [ExtCall.update]⟩
        | none => branchAfterFinalizer env inst2 [ExtCall.update]

end GkeReconciler

namespace GkeReconciler

/-- Concrete record for the C1 failing input: empty external name, an active
Creating condition, finalizer installed, no deletion requested. -/
def instC1 : GKECluster :=
  ⟨"u1", "us-central1-a", ReclaimPolicy.Delete, "",
   [⟨ConditionType.Creating, "Creating", ""⟩], [finalizer], none⟩

/-- Concrete oracle for the C1 failing input: connect succeeds and the
external create reports a BadRequest error. -/
def envC1 : GkeEnv :=
  ⟨none, some (CreateErr.badRequest "bad node config"), GetResult.err "", none, none, none, none⟩

/-- Concrete record for the C2 failing input: deletion requested, reclaim
policy Delete, external name recorded, finalizer installed. -/
def instC2 : GKECluster :=
  ⟨"u2", "z2", ReclaimPolicy.Delete, "gke-u2", [], [finalizer], some 5⟩

/-- Concrete oracle for the C2 failing input: the external delete reports
NotFound because the external resource is already absent. -/
def envC2 : GkeEnv :=
  ⟨none, none, GetResult.err "", some (DeleteErr.notFound "cluster not found"), none, none, none⟩

/-- Concrete record for the C3 witness: empty external name, finalizer
installed, no deletion requested. -/
def instC3 : GKECluster :=
  ⟨"u3", "z3", ReclaimPolicy.Delete, "", [], [finalizer], none⟩

/-- Concrete oracle for the C3 witness: the external create reports
AlreadyExists. -/
def envC3 : GkeEnv :=
  ⟨none, some (CreateErr.alreadyExists "already exists"), GetResult.err "", none, none, none, none⟩

/-- Concrete record for the C4 witness: empty external name, finalizer
installed, no deletion requested. -/
def instC4 : GKECluster :=
  ⟨"u4", "z4", ReclaimPolicy.Delete, "", [], [finalizer], none⟩

/-- Concrete oracle for the C4 witness: the external create reports
BadRequest. -/
def envC4 : GkeEnv :=
  ⟨none, some (CreateErr.badRequest "invalid zone"), GetResult.err "", none, none, none, none⟩

/-- Concrete observed cluster for C5: still provisioning, not running. -/
def clusterC5 : Cluster := ⟨"PROVISIONING", "1.2.3.4", "u", "p", "ca", "cert", "key"⟩

/-- Concrete record for C5: external name recorded, Creating active,
finalizer installed, no deletion requested. -/
def instC5 : GKECluster :=
  ⟨"u5", "z5", ReclaimPolicy.Delete, "gke-u5",
   [⟨ConditionType.Creating, "Creating", ""⟩], [finalizer], none⟩

/-- Concrete oracle for C5: the external get observes the provisioning
cluster. -/
def envC5 : GkeEnv :=
  ⟨none, none, GetResult.ok clusterC5, none, none, none, none⟩

/-- Concrete observed cluster for the C6 witness: running, with connection
attributes. -/
def clusterC6 : Cluster := ⟨"RUNNING", "10.0.0.1", "admin", "pw", "ca6", "cert6", "key6"⟩

/-- Concrete record for the C6 witness: external name recorded, Creating
active, finalizer installed. -/
def instC6 : GKECluster :=
  ⟨"u6", "z6", ReclaimPolicy.Delete, "gke-u6",
   [⟨ConditionType.Creating, "Creating", ""⟩], [finalizer], none⟩

/-- Concrete oracle for the C6 witness: the external get observes the running
cluster and the secret apply succeeds. -/
def envC6 : GkeEnv :=
  ⟨none, none, GetResult.ok clusterC6, none, none, none, none⟩

/-- Concrete record for the C7 witness: deletion requested under reclaim
policy Retain. -/
def instC7 : GKECluster :=
  ⟨"u7", "z7", ReclaimPolicy.Retain, "gke-u7", [], [finalizer], some 3⟩

/-- Concrete oracle for the C7 witness: every external outcome is benign. -/
def envC7 : GkeEnv :=
  ⟨none, none, GetResult.err "", none, none, none, none⟩

/-- Concrete record for the C8 failing input: deletion requested before any
create succeeded (empty external name), reclaim policy Delete. -/
def instC8 : GKECluster :=
  ⟨"u8", "z8", ReclaimPolicy.Delete, "", [], [finalizer], some 1⟩

/-- Concrete oracle for the C8 failing input: connect and delete succeed. -/
def envC8 : GkeEnv :=
  ⟨none, none, GetResult.err "", none, none, none, none⟩

/-- Concrete record for the C9 counterexample: external name recorded, no
condition active, finalizer absent, no deletion requested. -/
def instC9 : GKECluster :=
  ⟨"u9", "z9", ReclaimPolicy.Delete, "gke-u9", [], [], none⟩

/-- Concrete oracle for the C9 counterexample: the record persist right after
adding the finalizer fails. -/
def envC9 : GkeEnv :=
  ⟨none, none, GetResult.err "", none, none, some "update conflict", none⟩

/-- Concrete record for the C9 witness. -/
def instC9w : GKECluster :=
  ⟨"u9w", "z9w", ReclaimPolicy.Delete, "", [], [finalizer], none⟩

/-- Concrete oracle for the C9 witness: the client connect fails. -/
def envC9w : GkeEnv :=
  ⟨some "no creds", none, GetResult.err "", none, none, none, none⟩

/-- Concrete observed cluster placeholder for the C9 witness. -/
def clusterC9w : Cluster := ⟨"", "", "", "", "", "", ""⟩

/-- Concrete record for the C10 witness: deletion requested under reclaim
policy Retain with the finalizer installed. -/
def instC10 : GKECluster :=
  ⟨"u10", "z10", ReclaimPolicy.Retain, "gke-u10", [], [finalizer], some 9⟩

/-- Concrete oracle for the C10 witness: the client connect fails. -/
def envC10 : GkeEnv :=
  ⟨some "credentials secret missing", none, GetResult.err "", none, none, none, none⟩

/-- No run of fail performs a get call. -/
theorem getCluster_not_in_fail_calls (inst : GKECluster) (reason msg : String)
    (u : Option String) (z n : String) :
    ExtCall.getCluster z n ∉ (fail inst reason msg u).calls := by
  simp [fail]

/-- No run of the create branch performs a get call. -/
theorem getCluster_not_in_createBranch_calls (env : GkeEnv) (inst : GKECluster) (z n : String) :
    ExtCall.getCluster z n ∉ (createBranch env inst).calls := by
  cases he : env.createErr with
  | none => simp [createBranch, he]
  | some e => cases e <;> simp [createBranch, he, fail]

/-- No run of the delete branch performs a get call. -/
theorem getCluster_not_in_deleteBranch_calls (env : GkeEnv) (inst : GKECluster) (z n : String) :
    ExtCall.getCluster z n ∉ (deleteBranch env inst).calls := by
  by_cases hr : inst.reclaimPolicy = ReclaimPolicy.Delete <;>
    cases he : env.deleteErr <;>
      simp [deleteBranch, hr, he, fail]

/-- Claim C1 (code bug): at the failing input the create-branch path that
handles a BadRequest error does not first unset the other conditions, so a
record entering reconcile with an active Creating condition and an empty
external name completes reconcile with both the Creating and the Failed
condition present, contradicting the at-most-one-condition claim. -/
theorem c1_badRequest_leaves_two_conditions :
    ((reconcile envC1 instC1).inst.conditions.map Condition.condType)
      = [ConditionType.Creating, ConditionType.Failed] ∧
    (reconcile envC1 instC1).res = result := by
  constructor <;> rfl

/-- Claim C2 (code bug): at the failing input a delete attempt whose external
delete reports NotFound is treated as a failure, not success: the Failed
condition is set, a retry is requested, and the finalizer is kept, so a record
whose external resource is already absent never reaches finalizer removal and
retries without bound. -/
theorem c2_delete_notFound_fails_and_keeps_finalizer :
    (reconcile envC2 instC2).res = resultRequeue ∧
    hasFinalizer (reconcile envC2 instC2).inst.finalizers finalizer = true ∧
    ((reconcile envC2 instC2).inst.conditions.map Condition.condType)
      = [ConditionType.Failed] := by
  refine ⟨rfl, ?_, rfl⟩
  decide

end GkeReconciler

namespace GkeReconciler

/-- Claim C3: when the external create reports AlreadyExists, reconcile treats
the call as success: no error is surfaced, prior conditions are cleared and the
Creating condition is set, the external name derived deterministically from
the record identity is recorded, the record is persisted, a retry is
requested, and exactly one create call is issued in the invocation. -/
theorem c3_alreadyExists_absorbed (env : GkeEnv) (inst : GKECluster) (m : String)
    (hc : env.connectErr = none)
    (hd : inst.deletionTimestamp.isSome = false)
    (hf : env.updateFinalizerErr = none)
    (hn : inst.clusterName = "")
    (he : env.createErr = some (CreateErr.alreadyExists m))
    (hu : env.updateErr = none) :
    (reconcile env inst).err = none ∧
    (reconcile env inst).res = resultRequeue ∧
    ((reconcile env inst).inst.conditions.map Condition.condType) = [ConditionType.Creating] ∧
    (reconcile env inst).inst.clusterName = clusterNamePfx ++ inst.uid ∧
    ExtCall.update ∈ (reconcile env inst).calls ∧
    ExtCall.createCluster (clusterNamePfx ++ inst.uid) ∈ (reconcile env inst).calls ∧
    ((reconcile env inst).calls.filter ExtCall.isCreate).length = 1 := by
  cases hfin : hasFinalizer inst.finalizers finalizer <;>
    simp [reconcile, hc, hd, hf, hn, he, hu, hfin, branchAfterFinalizer, createBranch,
      setCreating, unsetAllConditions, setCondition, ExtCall.isCreate, List.filter]

/-- Concrete instantiation of the C3 theorem. -/
theorem c3_alreadyExists_absorbed_witness :
    (reconcile envC3 instC3).err = none ∧
    (reconcile envC3 instC3).res = resultRequeue ∧
    ((reconcile envC3 instC3).inst.conditions.map Condition.condType) = [ConditionType.Creating] ∧
    (reconcile envC3 instC3).inst.clusterName = clusterNamePfx ++ instC3.uid ∧
    ExtCall.update ∈ (reconcile envC3 instC3).calls ∧
    ExtCall.createCluster (clusterNamePfx ++ instC3.uid) ∈ (reconcile envC3 instC3).calls ∧
    ((reconcile envC3 instC3).calls.filter ExtCall.isCreate).length = 1 :=
  c3_alreadyExists_absorbed envC3 instC3 "already exists" rfl rfl rfl rfl rfl rfl

/-- Claim C4: in the create branch a BadRequest error sets the Failed
condition, persists the record, and requests no retry, while any other create
error (neither AlreadyExists nor BadRequest) sets the Failed condition and
requests a retry. -/
theorem c4_badRequest_terminal_other_retries (env : GkeEnv) (inst : GKECluster) (m : String)
    (hc : env.connectErr = none)
    (hd : inst.deletionTimestamp.isSome = false)
    (hf : env.updateFinalizerErr = none)
    (hn : inst.clusterName = "")
    (hu : env.updateErr = none) :
    (env.createErr = some (CreateErr.badRequest m) →
      (reconcile env inst).res = result ∧
      ConditionType.Failed ∈ ((reconcile env inst).inst.conditions.map Condition.condType) ∧
      ExtCall.update ∈ (reconcile env inst).calls) ∧
    (env.createErr = some (CreateErr.other m) →
      (reconcile env inst).res = resultRequeue ∧
      ((reconcile env inst).inst.conditions.map Condition.condType) = [ConditionType.Failed] ∧
      ExtCall.update ∈ (reconcile env inst).calls) := by
  constructor <;> intro he <;>
    cases hfin : hasFinalizer inst.finalizers finalizer <;>
      simp [reconcile, hc, hd, hf, hn, hu, he, hfin, branchAfterFinalizer, createBranch, fail,
        setFailed, unsetAllConditions, setCondition]

/-- Concrete instantiation of the C4 theorem at a BadRequest create error. -/
theorem c4_badRequest_terminal_other_retries_witness :
    (reconcile envC4 instC4).res = result ∧
    ConditionType.Failed ∈ ((reconcile envC4 instC4).inst.conditions.map Condition.condType) ∧
    ExtCall.update ∈ (reconcile envC4 instC4).calls :=
  (c4_badRequest_terminal_other_retries envC4 instC4 "invalid zone" rfl rfl rfl rfl rfl).1 rfl

end GkeReconciler

namespace GkeReconciler

/-- Claim C5 counterexample: at a concrete sync invocation whose observed
cluster is still provisioning, reconcile returns an immediate requeue with a
zero requeue-after delay, refuting the part of the claim that says the retry
is a requeue-after-delay signal and not an immediate requeue. -/
theorem c5_not_running_immediate_requeue_cex :
    (reconcile envC5 instC5).res.requeue = true ∧
    (reconcile envC5 instC5).res.requeueAfter = 0 := by
  constructor <;> rfl

/-- Claim C5 amended: when the external get succeeds but the observed cluster
is not yet running, reconcile never sets the Ready condition, changes no
condition at all, surfaces no error, and requests an immediate requeue with
zero delay (not a delayed retry and not an in-process wait). -/
theorem c5_not_running_no_condition_change (env : GkeEnv) (inst : GKECluster) (c : Cluster)
    (hc : env.connectErr = none)
    (hd : inst.deletionTimestamp.isSome = false)
    (hf : env.updateFinalizerErr = none)
    (hn : inst.clusterName ≠ "")
    (hg : env.getClusterResult = GetResult.ok c)
    (hs : c.status ≠ clusterStateRunning) :
    (reconcile env inst).inst.conditions = inst.conditions ∧
    (reconcile env inst).res = resultRequeue ∧
    (reconcile env inst).res.requeueAfter = 0 ∧
    (reconcile env inst).err = none := by
  cases hfin : hasFinalizer inst.finalizers finalizer <;>
    simp [reconcile, hc, hd, hf, hn, hg, hs, hfin, branchAfterFinalizer, syncBranch,
      resultRequeue]

/-- Concrete instantiation of the amended C5 theorem. -/
theorem c5_not_running_no_condition_change_witness :
    (reconcile envC5 instC5).inst.conditions = instC5.conditions ∧
    (reconcile envC5 instC5).res = resultRequeue ∧
    (reconcile envC5 instC5).res.requeueAfter = 0 ∧
    (reconcile envC5 instC5).err = none :=
  c5_not_running_no_condition_change envC5 instC5 clusterC5 rfl rfl rfl
    (by decide) rfl (by decide)

/-- Claim C6: when the observed cluster is running, reconcile applies the
connection secret carrying exactly the six fixed keys derived from the
observed attributes, then clears prior conditions, sets the Ready condition,
persists, and requests no further retry; if applying the secret fails it
instead sets the Failed condition and requests a retry. -/
theorem c6_running_publishes_secret_and_ready (env : GkeEnv) (inst : GKECluster)
    (c : Cluster) (m : String)
    (hc : env.connectErr = none)
    (hd : inst.deletionTimestamp.isSome = false)
    (hf : env.updateFinalizerErr = none)
    (hn : inst.clusterName ≠ "")
    (hg : env.getClusterResult = GetResult.ok c)
    (hs : c.status = clusterStateRunning)
    (hu : env.updateErr = none) :
    ((connectionSecretData c).map Prod.fst)
      = [secretEndpointKey, secretUserKey, secretPasswordKey, secretCAKey,
         secretClientCertKey, secretClientKeyKey] ∧
    (env.applySecretErr = none →
      (reconcile env inst).res = result ∧
      (reconcile env inst).err = none ∧
      ((reconcile env inst).inst.conditions.map Condition.condType) = [ConditionType.Ready] ∧
      ExtCall.applySecret (connectionSecretData c) ∈ (reconcile env inst).calls ∧
      ExtCall.update ∈ (reconcile env inst).calls) ∧
    (env.applySecretErr = some m →
      (reconcile env inst).res = resultRequeue ∧
      ((reconcile env inst).inst.conditions.map Condition.condType) = [ConditionType.Failed]) := by
  refine ⟨by simp [connectionSecretData], ?_, ?_⟩ <;> intro ha <;>
    cases hfin : hasFinalizer inst.finalizers finalizer <;>
      simp [reconcile, hc, hd, hf, hn, hg, hs, hu, ha, hfin, branchAfterFinalizer, syncBranch,
        connectionSecret, fail, setReady, setFailed, unsetAllConditions, setCondition]

/-- Concrete instantiation of the C6 theorem in the success case. -/
theorem c6_running_publishes_secret_and_ready_witness :
    ((connectionSecretData clusterC6).map Prod.fst)
      = [secretEndpointKey, secretUserKey, secretPasswordKey, secretCAKey,
         secretClientCertKey, secretClientKeyKey] ∧
    (reconcile envC6 instC6).res = result ∧
    (reconcile envC6 instC6).err = none ∧
    ((reconcile envC6 instC6).inst.conditions.map Condition.condType) = [ConditionType.Ready] ∧
    ExtCall.applySecret (connectionSecretData clusterC6) ∈ (reconcile envC6 instC6).calls ∧
    ExtCall.update ∈ (reconcile envC6 instC6).calls :=
  ⟨(c6_running_publishes_secret_and_ready envC6 instC6 clusterC6 "m" rfl rfl rfl
      (by decide) rfl rfl rfl).1,
   (c6_running_publishes_secret_and_ready envC6 instC6 clusterC6 "m" rfl rfl rfl
      (by decide) rfl rfl rfl).2.1 rfl⟩

/-- Claim C7: a record with reclaim policy Retain and a deletion request has
the finalizer token removed and the record persisted, and the only external
interaction of the whole invocation is that persist: the external delete is
never invoked. -/
theorem c7_retain_skips_external_delete (env : GkeEnv) (inst : GKECluster)
    (hc : env.connectErr = none)
    (hd : inst.deletionTimestamp.isSome = true)
    (hr : inst.reclaimPolicy = ReclaimPolicy.Retain) :
    (reconcile env inst).calls = [ExtCall.update] ∧
    (reconcile env inst).inst.finalizers = removeFinalizer inst.finalizers finalizer ∧
    finalizer ∉ (reconcile env inst).inst.finalizers ∧
    (reconcile env inst).res = result := by
  refine ⟨?_, ?_, ?_, ?_⟩ <;>
    simp [reconcile, hc, hd, deleteBranch, hr, removeFinalizer, List.mem_filter]

/-- Concrete instantiation of the C7 theorem. -/
theorem c7_retain_skips_external_delete_witness :
    (reconcile envC7 instC7).calls = [ExtCall.update] ∧
    (reconcile envC7 instC7).inst.finalizers = removeFinalizer instC7.finalizers finalizer ∧
    finalizer ∉ (reconcile envC7 instC7).inst.finalizers ∧
    (reconcile envC7 instC7).res = result :=
  c7_retain_skips_external_delete envC7 instC7 rfl rfl rfl

end GkeReconciler

namespace GkeReconciler

/-- Claim C8 counterexample: a record whose deletion is requested before any
create succeeded (empty external name) under reclaim policy Delete makes
reconcile invoke the external delete with an empty name, refuting the claim
that the external delete is invoked only when the external name is
non-empty. -/
theorem c8_delete_with_empty_name_cex :
    ExtCall.deleteCluster "z8" "" ∈ (reconcile envC8 instC8).calls := by
  decide

/-- Claim C8 amended: the external get is invoked only when the recorded
external name is non-empty; the external delete, however, is invoked whenever
deletion is requested under reclaim policy Delete, with whatever external name
is recorded, even when it is empty. -/
theorem c8_get_guarded_delete_unguarded (env : GkeEnv) (inst : GKECluster) :
    (inst.clusterName = "" →
      ∀ z n : String, ExtCall.getCluster z n ∉ (reconcile env inst).calls) ∧
    (env.connectErr = none → inst.deletionTimestamp.isSome = true →
      inst.reclaimPolicy = ReclaimPolicy.Delete →
      ExtCall.deleteCluster inst.zone inst.clusterName ∈ (reconcile env inst).calls) := by
  constructor
  · intro hn z n
    cases hc : env.connectErr with
    | some m =>
        simpa [reconcile, hc] using getCluster_not_in_fail_calls inst errorClusterClient m
          env.updateErr z n
    | none =>
        cases hdel : inst.deletionTimestamp.isSome with
        | true =>
            simpa [reconcile, hc, hdel] using getCluster_not_in_deleteBranch_calls env inst z n
        | false =>
            cases hfin : hasFinalizer inst.finalizers finalizer with
            | true =>
                have h1 := getCluster_not_in_createBranch_calls env inst z n
                simp [reconcile, hc, hdel, hfin, branchAfterFinalizer, hn]
                simpa [hn] using h1
            | false =>
                cases hupd : env.updateFinalizerErr with
                | some m => simp [reconcile, hc, hdel, hfin, hupd]
                | none =>
                    have h1 := getCluster_not_in_createBranch_calls env
                      { inst with finalizers := addFinalizer inst.finalizers finalizer } z n
                    simp [reconcile, hc, hdel, hfin, hupd, branchAfterFinalizer, hn]
                    simpa [hn] using h1
  · intro hc hdel hr
    cases he : env.deleteErr with
    | some e => simp [reconcile, hc, hdel, deleteBranch, hr, he, fail]
    | none => simp [reconcile, hc, hdel, deleteBranch, hr, he]

/-- Concrete instantiation of the amended C8 theorem at a record with an empty
external name whose deletion is requested under reclaim policy Delete. -/
theorem c8_get_guarded_delete_unguarded_witness :
    ExtCall.getCluster "z8" "gke-u8" ∉ (reconcile envC8 instC8).calls ∧
    ExtCall.deleteCluster instC8.zone instC8.clusterName ∈ (reconcile envC8 instC8).calls :=
  ⟨(c8_get_guarded_delete_unguarded envC8 instC8).1 rfl "z8" "gke-u8",
   (c8_get_guarded_delete_unguarded envC8 instC8).2 rfl rfl rfl⟩

/-- Claim C9 counterexample: when the record persist performed right after
adding the finalizer fails, reconcile returns the error with no condition
recorded at all, even though the external name is set, refuting the claim that
every post-fetch error leaves a corresponding condition on the record. -/
theorem c9_finalizer_persist_error_no_condition_cex :
    (reconcile envC9 instC9).err = some "update conflict" ∧
    (reconcile envC9 instC9).inst.conditions = [] ∧
    (reconcile envC9 instC9).inst.clusterName = "gke-u9" := by
  refine ⟨rfl, rfl, rfl⟩

/-- Claim C9 amended: every connect, create, get, delete and
secret-persistence failure records a condition on the record (the Failed
condition) before the retry decision is returned; the failure of the record
persist performed right after adding the finalizer, however, returns a requeue
and the error without recording any condition. -/
theorem c9_failures_record_condition (env : GkeEnv) (inst : GKECluster)
    (m : String) (c : Cluster) :
    (env.connectErr = some m →
      ((reconcile env inst).inst.conditions.map Condition.condType) = [ConditionType.Failed] ∧
      (reconcile env inst).res = resultRequeue) ∧
    (env.connectErr = none → inst.deletionTimestamp.isSome = false →
      hasFinalizer inst.finalizers finalizer = false → env.updateFinalizerErr = some m →
      (reconcile env inst).err = some m ∧
      (reconcile env inst).inst.conditions = inst.conditions ∧
      (reconcile env inst).res = resultRequeue) ∧
    (env.connectErr = none → inst.deletionTimestamp.isSome = false →
      env.updateFinalizerErr = none → inst.clusterName = "" →
      env.createErr = some (CreateErr.badRequest m) →
      ConditionType.Failed ∈ ((reconcile env inst).inst.conditions.map Condition.condType)) ∧
    (env.connectErr = none → inst.deletionTimestamp.isSome = false →
      env.updateFinalizerErr = none → inst.clusterName = "" →
      env.createErr = some (CreateErr.other m) →
      ((reconcile env inst).inst.conditions.map Condition.condType) = [ConditionType.Failed]) ∧
    (env.connectErr = none → inst.deletionTimestamp.isSome = false →
      env.updateFinalizerErr = none → inst.clusterName ≠ "" →
      env.getClusterResult = GetResult.err m →
      ((reconcile env inst).inst.conditions.map Condition.condType) = [ConditionType.Failed]) ∧
    (env.connectErr = none → inst.deletionTimestamp.isSome = false →
      env.updateFinalizerErr = none → inst.clusterName ≠ "" →
      env.getClusterResult = GetResult.ok c → c.status = clusterStateRunning →
      env.applySecretErr = some m →
      ((reconcile env inst).inst.conditions.map Condition.condType) = [ConditionType.Failed]) ∧
    (env.connectErr = none → inst.deletionTimestamp.isSome = true →
      inst.reclaimPolicy = ReclaimPolicy.Delete → env.deleteErr = some (DeleteErr.other m) →
      ((reconcile env inst).inst.conditions.map Condition.condType) = [ConditionType.Failed]) := by
  refine ⟨?_, ?_, ?_, ?_, ?_, ?_, ?_⟩
  · intro hc
    simp [reconcile, hc, fail, setFailed, unsetAllConditions, setCondition]
  · intro hc hdel hfin hupd
    simp [reconcile, hc, hdel, hfin, hupd]
  · intro hc hdel hf hn he
    cases hfin : hasFinalizer inst.finalizers finalizer <;>
      simp [reconcile, hc, hdel, hf, hn, he, hfin, branchAfterFinalizer, createBranch,
        setFailed, setCondition]
  · intro hc hdel hf hn he
    cases hfin : hasFinalizer inst.finalizers finalizer <;>
      simp [reconcile, hc, hdel, hf, hn, he, hfin, branchAfterFinalizer, createBranch, fail,
        setFailed, unsetAllConditions, setCondition]
  · intro hc hdel hf hn hg
    cases hfin : hasFinalizer inst.finalizers finalizer <;>
      simp [reconcile, hc, hdel, hf, hn, hg, hfin, branchAfterFinalizer, syncBranch, fail,
        setFailed, unsetAllConditions, setCondition]
  · intro hc hdel hf hn hg hs ha
    cases hfin : hasFinalizer inst.finalizers finalizer <;>
      simp [reconcile, hc, hdel, hf, hn, hg, hs, ha, hfin, branchAfterFinalizer, syncBranch,
        fail, setFailed, unsetAllConditions, setCondition]
  · intro hc hdel hr he
    simp [reconcile, hc, hdel, deleteBranch, hr, he, fail, setFailed, unsetAllConditions,
      setCondition]

/-- Concrete instantiation of the amended C9 theorem at a failing client
connect. -/
theorem c9_failures_record_condition_witness :
    ((reconcile envC9w instC9w).inst.conditions.map Condition.condType)
      = [ConditionType.Failed] ∧
    (reconcile envC9w instC9w).res = resultRequeue :=
  (c9_failures_record_condition envC9w instC9w "no creds" clusterC9w).1 rfl

/-- Claim C10: when a deletion is requested but the external client connect
fails, reconcile sets the Failed condition and requests a retry without
removing the finalizer and without any external call, because the connect step
runs before the deletion check; the invocation performs only the fail
persist. -/
theorem c10_connect_failure_blocks_deletion (env : GkeEnv) (inst : GKECluster) (m : String)
    (hc : env.connectErr = some m)
    (hd : inst.deletionTimestamp.isSome = true) :
    (reconcile env inst).res = resultRequeue ∧
    ((reconcile env inst).inst.conditions.map Condition.condType) = [ConditionType.Failed] ∧
    (reconcile env inst).inst.finalizers = inst.finalizers ∧
    (reconcile env inst).calls = [ExtCall.update] := by
  refine ⟨?_, ?_, ?_, ?_⟩ <;>
    simp [reconcile, hc, fail, setFailed, unsetAllConditions, setCondition]

/-- Concrete instantiation of the C10 theorem at a Retain-policy record whose
deletion is requested. -/
theorem c10_connect_failure_blocks_deletion_witness :
    (reconcile envC10 instC10).res = resultRequeue ∧
    ((reconcile envC10 instC10).inst.conditions.map Condition.condType)
      = [ConditionType.Failed] ∧
    (reconcile envC10 instC10).inst.finalizers = instC10.finalizers ∧
    (reconcile envC10 instC10).calls = [ExtCall.update] :=
  c10_connect_failure_blocks_deletion envC10 instC10 "credentials secret missing" rfl rfl

end GkeReconciler
